import Mathlib

/-!
Verification of the Superset dashboard-source core
(`api_source.py` / `db_source.py`): a shallow embedding of the
identity-resolution and lineage-reconstruction layer, with theorems about
the behaviour of each operation.

Conventions of the embedding:
* Python exceptions are the inductive `PyExc`; fallible code returns
  `Except PyExc _`.
* Python `None` is `Option.none`; attribute access on `None` raises
  `PyExc.attributeError`.
* The mutable instance state (the chart cache `all_charts`, the status
  sink, the log) is threaded explicitly as `ApiState` / `DbState`.
* Collaborators that live outside the two source files (the naming
  authority, the helper utilities, the generated request types) are
  modelled from the spec and marked as such in their doc comments.
-/

/-- Kinds of Python exception relevant to the embedded code paths. -/
inductive PyExc where
  | keyError
  | attributeError
  | validationError
deriving DecidableEq, Repr

/-- Events recorded against the status/report sink
(`self.status.filter`, `self.status.scanned`, `self.status.failed`). -/
inductive StatusEvent where
  | filtered (name reason : String)
  | scanned (msg : String)
  | failed (name error : String)
deriving DecidableEq, Repr

/-- Mirror of the generated `CreateChartRequest` record, restricted to the
fields the two source files populate. -/
structure CreateChartRequest where
  name : String
  displayName : String
  description : Option String
  chartType : String
  sourceUrl : String
  service : String
deriving DecidableEq, Repr, Inhabited

/-- Mirror of the generated `CreateDashboardRequest` record. -/
structure CreateDashboardRequest where
  name : String
  displayName : String
  sourceUrl : String
  charts : List String
  service : String
deriving DecidableEq, Repr, Inhabited

/-- Mirror of the generated `Column` entity record, restricted to the
fields `get_column_info` populates. -/
structure Column where
  dataTypeDisplay : Option String
  dataType : String
  name : String
  displayName : String
  description : Option String
  dataLength : Option Nat
deriving DecidableEq, Repr, Inhabited

/-- Mirror of the generated `CreateDashboardDataModelRequest` record. -/
structure CreateDashboardDataModelRequest where
  name : String
  displayName : String
  service : String
  columns : List Column
  dataModelType : String
deriving DecidableEq, Repr, Inhabited

/-- Mirror of the generated `AddLineageRequest` record: one directed edge. -/
structure AddLineageRequest where
  fromEntity : String
  toEntity : String
deriving DecidableEq, Repr, Inhabited

/-- Mirror of the `DatabaseService` entity: its name and the database
configured on its connection (used by the override policy). -/
structure DatabaseService where
  name : String
  configuredDatabase : Option String
deriving DecidableEq, Repr, Inhabited

/-- Modelled from the spec: helper `get_database_name_for_lineage`
(not under src/) applies the database-name-override policy, where the
service-declared override wins over the backend-reported default. -/
def get_database_name_for_lineage (db_service_entity : DatabaseService)
    (default_database_name : Option String) : Option String :=
  match db_service_entity.configuredDatabase with
  | some override => some override
  | none => default_database_name

/-- ASCII uppercase of one character. -/
def upChar (c : Char) : Char :=
  if 97 ≤ c.toNat ∧ c.toNat ≤ 122 then Char.ofNat (c.toNat - 32) else c

/-- ASCII uppercase of a string (kernel-reducible form of `str.upper`). -/
def toUpperStr (s : String) : String := ⟨s.data.map upChar⟩

/-- Split a character list at every occurrence of `sep`. -/
def splitOnChar (sep : Char) : List Char → List (List Char)
  | [] => [[]]
  | c :: rest =>
    let r := splitOnChar sep rest
    if c = sep then [] :: r
    else
      match r with
      | [] => [[c]]
      | h :: t => (c :: h) :: t

/-- Strip leading and trailing spaces from a character list. -/
def trimChars (cs : List Char) : List Char :=
  ((cs.dropWhile (fun c => c = ' ')).reverse.dropWhile (fun c => c = ' ')).reverse

/-- Parse a non-empty all-digit character list into a number. -/
def digitsToNat? (cs : List Char) : Option Nat :=
  if cs = [] then none
  else if cs.all (fun c => 48 ≤ c.toNat ∧ c.toNat ≤ 57) then
    some (cs.foldl (fun acc c => acc * 10 + (c.toNat - 48)) 0)
  else none

/-- Modelled from the spec: helper `clean_uri` (not under src/) strips a
trailing slash from the configured host URI. -/
def clean_uri (s : String) : String :=
  if s.data.getLast? = some '/' then ⟨s.data.dropLast⟩ else s

/-- Static viz-type lookup table of `get_standard_chart_type`. -/
def chartTypeMap : List (String × String) :=
  [("table", "Table"), ("big_number", "Other"), ("dist_bar", "Bar"),
   ("pie", "Pie"), ("histogram", "Histogram"), ("area", "Area")]

/-- Modelled from the spec: helper `get_standard_chart_type` (not under
src/) maps the backend viz-type string to a canonical chart type through a
static lookup table; an unknown viz-type maps to Other. -/
def get_standard_chart_type (viz_type : String) : String :=
  (chartTypeMap.lookup viz_type).getD "Other"

/-- Modelled from the spec: the naming authority `fqn.build` (not under
src/) deterministically combines (service, database, schema, table) into a
stable identifier string and must be called with a non-empty service name;
a rejection is raised as an exception. Python renders an absent part as
the string None. -/
def fqn_build_table (service_name : String) (database_name schema_name : Option String)
    (table_name : String) : Except PyExc String :=
  if service_name = "" then
    .error .validationError
  else
    .ok (String.intercalate "."
      [service_name, database_name.getD "None", schema_name.getD "None", table_name])

/-- Modelled from the spec: the naming authority `fqn.build` for charts
deterministically combines (service, chart) into a stable identifier. -/
def fqn_build_chart (service_name chart_name : String) : String :=
  service_name ++ "." ++ chart_name

/-- Python truthiness conversion used by `field.type if field.type else
None`: an absent or empty string is falsy and becomes None. -/
def py_str_opt (s : Option String) : Option String :=
  match s with
  | none => none
  | some str => if str = "" then none else some str

/-- Result of the column type inference: a canonical type kind and an
optional length. -/
structure ParsedType where
  dataType : String
  dataLength : Option Nat
deriving DecidableEq, Repr, Inhabited

/-- Base type kinds known to the column type inference. -/
def knownTypeKinds : List String :=
  ["VARCHAR", "CHAR", "TEXT", "STRING", "INT", "INTEGER", "BIGINT",
   "SMALLINT", "TINYINT", "FLOAT", "DOUBLE", "NUMERIC", "DECIMAL",
   "BOOLEAN", "DATE", "TIMESTAMP", "TIME", "ARRAY", "MAP", "STRUCT"]

/-- Modelled from the spec: `ColumnTypeParser._parse_datatype_string` (not
under src/) parses a free-text type description into a (type-kind, length)
pair; a parenthesized number gives the length, unknown or unparsable
strings yield the catch-all kind UNKNOWN, and an absent string yields
UNKNOWN with no length. It never raises outward. -/
def parse_datatype_string (s : Option String) : ParsedType :=
  match s with
  | none => { dataType := "UNKNOWN", dataLength := none }
  | some str =>
    let upper := toUpperStr str
    let parts := splitOnChar '(' upper.data
    let base : String := ⟨trimChars (parts.headD [])⟩
    let len : Option Nat :=
      match parts with
      | _ :: inner :: _ =>
        digitsToNat?
          (trimChars
            ((splitOnChar ',' ((splitOnChar ')' inner).headD [])).headD []))
      | _ => none
    if knownTypeKinds.contains base then
      { dataType := base, dataLength := len }
    else
      { dataType := "UNKNOWN", dataLength := none }

/-- Modelled from the spec: the generated `Column` type (out of scope
collaborator) validates its input; a column whose name is empty is
rejected with a validation error. -/
def mk_column (c : Column) : Except PyExc Column :=
  if c.name = "" then .error .validationError else .ok c

/-- Modelled from the spec: the generated `CreateDashboardDataModelRequest`
type validates its input; a request whose name is empty is rejected with a
validation error. -/
def mk_datamodel_request (r : CreateDashboardDataModelRequest) :
    Except PyExc CreateDashboardDataModelRequest :=
  if r.name = "" then .error .validationError else .ok r

section ApiModels

/-- Reference to the owning database inside a datasource record. -/
structure DbRef where
  id : Nat
deriving DecidableEq, Repr, Inhabited

/-- One column field of an API datasource record. -/
structure DataSourceField where
  id : String
  column_name : String
  description : Option String
  type : Option String
deriving DecidableEq, Repr, Inhabited

/-- Payload of an API datasource record (`datasource_json.result`). -/
structure DatasourceResult where
  database : DbRef
  table_name : String
  table_schema : Option String
  columns : Option (List DataSourceField)
deriving DecidableEq, Repr, Inhabited

/-- An API datasource record (`SupersetDatasource`). -/
structure SupersetDatasource where
  id : String
  result : DatasourceResult
deriving DecidableEq, Repr, Inhabited

/-- Connection parameters of an API database record. -/
structure DatabaseParameters where
  database : Option String
deriving DecidableEq, Repr, Inhabited

/-- Payload of an API database record (`database_json.result`). -/
structure DatabaseResult where
  parameters : Option DatabaseParameters
deriving DecidableEq, Repr, Inhabited

/-- An API database record. -/
structure SupersetDatabase where
  result : DatabaseResult
deriving DecidableEq, Repr, Inhabited

/-- A raw chart record as cached by the API variant. -/
structure SupersetChart where
  id : Nat
  slice_name : String
  description : Option String
  viz_type : String
  url : String
  datasource_id : String
deriving DecidableEq, Repr, Inhabited

/-- One page returned by `fetch_charts`: parallel lists of ids and chart
records. -/
structure ChartPage where
  ids : List Nat
  result : List SupersetChart
deriving DecidableEq, Repr, Inhabited

/-- The API backend client: total counts, paginated listings, and
single-id fetches, each of which may raise or report a missing record. -/
structure SupersetAPIClient where
  fetch_total_charts : Nat
  fetch_charts : Nat → Nat → ChartPage
  fetch_datasource : String → Except PyExc (Option SupersetDatasource)
  fetch_database : Nat → Except PyExc (Option SupersetDatabase)

end ApiModels

/-- Body of `SupersetAPISource._get_datasource_fqn` before the
`except KeyError` handler: fetch the datasource record, fetch the owning
database record, apply the database-name-override policy and build the
table FQN. A missing datasource record falls through to `return None`; a
missing database record raises `AttributeError` at the attribute access
`database_json.result`. -/
def api_get_datasource_fqn_body (client : SupersetAPIClient)
    (datasource_id : String) (db_service_entity : DatabaseService) :
    Except PyExc (Option String) := do
  let datasource_opt ← client.fetch_datasource datasource_id
  match datasource_opt with
  | none => pure none
  | some datasource_json => do
    let database_opt ← client.fetch_database datasource_json.result.database.id
    match database_opt with
    | none => throw .attributeError
    | some database_json =>
      let default_database_name : Option String :=
        match database_json.result.parameters with
        | some p => p.database
        | none => none
      let database_name :=
        get_database_name_for_lineage db_service_entity default_database_name
      let dataset_fqn ← fqn_build_table db_service_entity.name database_name
        datasource_json.result.table_schema datasource_json.result.table_name
      pure (some dataset_fqn)

/-- Embedding of `SupersetAPISource._get_datasource_fqn`: the body wrapped
in `try ... except KeyError`, which converts a `KeyError` (only) into
`return None`. -/
def api_get_datasource_fqn (client : SupersetAPIClient)
    (datasource_id : String) (db_service_entity : DatabaseService) :
    Except PyExc (Option String) :=
  match api_get_datasource_fqn_body client datasource_id db_service_entity with
  | .error .keyError => .ok none
  | r => r

section DbModels

/-- A raw chart row as cached by the DB (reflection) variant
(`FetchChart`). -/
structure FetchChart where
  id : Nat
  slice_name : String
  description : Option String
  viz_type : String
  datasource_id : String
  table_name : String
  table_schema : Option String
  sqlalchemy_uri : Option String
deriving DecidableEq, Repr, Inhabited

/-- One column row returned by the dedicated column-listing query
(`FetchColumn`). -/
structure FetchColumn where
  id : String
  column_name : String
  description : Option String
  type : Option String
deriving DecidableEq, Repr, Inhabited

/-- Parsed connection URL as produced by `make_url`. -/
structure SqaUrl where
  database : Option String
deriving DecidableEq, Repr, Inhabited

end DbModels

/-- Reference to an already-ingested entity held in the processing
context (a dashboard or a data model): its server-assigned id, when
present, and its name. -/
structure EntityRef where
  id : Option String
  name : String
deriving DecidableEq, Repr, Inhabited

/-- A dashboard record as handed to the per-dashboard methods, with the
chart ids extracted by the mixin. -/
structure DashboardDetails where
  id : Nat
  dashboard_title : String
  url : String
  chart_ids : List Nat
deriving DecidableEq, Repr, Inhabited

/-- Modelled from the spec: mixin helper `_get_charts_of_dashboard` (not
under src/) returns the ids of the charts referenced by the dashboard
record. -/
def get_charts_of_dashboard (dashboard_details : DashboardDetails) : List Nat :=
  dashboard_details.chart_ids

/-- Modelled from the spec: mixin helper `_get_add_lineage_request` (not
under src/) builds one directed lineage edge from `from_entity` to
`to_entity`; a malformed context entity (one without a server id) makes
the edge construction raise. -/
def get_add_lineage_request (to_entity from_entity : EntityRef) :
    Except PyExc AddLineageRequest :=
  match from_entity.id, to_entity.id with
  | some fromId, some toId => .ok { fromEntity := fromId, toEntity := toId }
  | _, _ => .error .attributeError

/-- Environment of the API variant: the backend client, the configuration
and the processing context. -/
structure ApiEnv where
  client : SupersetAPIClient
  hostPort : String
  serviceName : String
  includeDataModels : Bool
  dataModelFilterMatches : String → Bool
  context_charts : List CreateChartRequest
  context_dataModels : List EntityRef
  context_dashboard : EntityRef

/-- Mutable instance state of a source: the id-indexed chart cache, the
status sink and the warning/error log, parametric in the cached chart
record type. -/
structure SrcState (χ : Type) where
  all_charts : Nat → Option χ
  status : List StatusEvent
  logs : List String

/-- Append one log line (`logger.warning` / `logger.error`). -/
def addLog {χ : Type} (m : String) (s : SrcState χ) : SrcState χ :=
  { s with logs := s.logs ++ [m] }

/-- Append one status event against the status sink. -/
def addStatus {χ : Type} (e : StatusEvent) (s : SrcState χ) : SrcState χ :=
  { s with status := s.status ++ [e] }

/-- Mutable instance state of the API variant. -/
abbrev ApiState : Type := SrcState SupersetChart

/-- Environment of the DB (reflection) variant: the query results of the
warehouse engine, the external URL parsing collaborator, the
configuration and the processing context. -/
structure DbEnv where
  fetch_all_charts : List FetchChart
  fetch_columns : String → List FetchColumn
  make_url : String → Except PyExc SqaUrl
  hostPort : String
  serviceName : String
  includeDataModels : Bool
  dataModelFilterMatches : String → Bool
  context_charts : List CreateChartRequest
  context_dataModels : List EntityRef
  context_dashboard : EntityRef

/-- Mutable instance state of the DB variant. -/
abbrev DbState : Type := SrcState FetchChart

/-- Embedding of `SupersetDBSource._get_database_name`: parse the
connection string (when present and non-empty, its absence leaving the
default at None) and apply the override policy. -/
def db_get_database_name (env : DbEnv) (sqa_str : Option String)
    (db_service_entity : DatabaseService) : Except PyExc (Option String) :=
  match sqa_str with
  | none => .ok (get_database_name_for_lineage db_service_entity none)
  | some s =>
    if s = "" then
      .ok (get_database_name_for_lineage db_service_entity none)
    else
      match env.make_url s with
      | .error e => .error e
      | .ok sqa_url =>
        .ok (get_database_name_for_lineage db_service_entity sqa_url.database)

/-- Body of `SupersetDBSource._get_datasource_fqn` before the broad
`except Exception` handler: derive the database name from the charts
embedded connection string and build the table FQN. -/
def db_get_datasource_fqn_body (env : DbEnv) (chart_json : FetchChart)
    (db_service_entity : DatabaseService) : Except PyExc String := do
  let database_name ← db_get_database_name env chart_json.sqlalchemy_uri db_service_entity
  fqn_build_table db_service_entity.name database_name
    chart_json.table_schema chart_json.table_name

/-- Embedding of `SupersetDBSource._get_datasource_fqn`: the body wrapped
in `try ... except Exception`, which converts every exception kind into
`return None`. -/
def db_get_datasource_fqn (env : DbEnv) (chart_json : FetchChart)
    (db_service_entity : DatabaseService) : Option String :=
  match db_get_datasource_fqn_body env chart_json db_service_entity with
  | .ok dataset_fqn => some dataset_fqn
  | .error _ => none

/-- Pointwise update of an id-indexed dictionary, as Python dict
assignment. -/
def dictInsert {α : Type} (d : Nat → Option α) (k : Nat) (v : α) :
    Nat → Option α :=
  fun x => if x = k then some v else d x

/-- One page of `prepare` in the API variant: for each index of
`charts.result`, store `charts.result[index]` under `charts.ids[index]`.
The indexing is total here (`getD`); the theorems about retrievability
assume the backend returns parallel id and result lists of equal length,
which is what the Python indexing presupposes. -/
def insertPage (d : Nat → Option SupersetChart) (page : ChartPage) :
    Nat → Option SupersetChart :=
  (List.range page.result.length).foldl
    (fun acc index =>
      dictInsert acc (page.ids.getD index 0) (page.result.getD index default))
    d

/-- Pagination loop of `SupersetAPISource.prepare`: while
`current_page * page_size <= total_charts` (with page size 25), fetch the
page, store its charts and advance. -/
def api_prepare_go (client : SupersetAPIClient) (total_charts : Nat)
    (current_page : Nat) (d : Nat → Option SupersetChart) :
    Nat → Option SupersetChart :=
  if h : current_page * 25 ≤ total_charts then
    api_prepare_go client total_charts (current_page + 1)
      (insertPage d (client.fetch_charts current_page 25))
  else
    d
termination_by total_charts + 1 - current_page * 25
decreasing_by
  omega

/-- Embedding of `SupersetAPISource.prepare`: prime the chart cache from
page 0. -/
def api_prepare (env : ApiEnv) (s : ApiState) : ApiState :=
  { s with all_charts :=
      api_prepare_go env.client env.client.fetch_total_charts 0 s.all_charts }

/-- Embedding of `SupersetDBSource.prepare`: one bulk query, each row
stored under its id. -/
def db_prepare (env : DbEnv) (s : DbState) : DbState :=
  { s with all_charts :=
      (env.fetch_all_charts.foldl
        (fun acc chart_detail => dictInsert acc chart_detail.id chart_detail)
        s.all_charts) }

/-- Warning message logged when a chart id referenced by a dashboard is
absent from the chart cache. -/
def chart_miss_msg (chart_id : Nat) : String :=
  "chart details for id: " ++ toString chart_id ++ " not found, skipped"

/-- Chart request built by the API variant for a cached chart record. -/
def api_mk_chart_request (env : ApiEnv) (chart_json : SupersetChart) :
    CreateChartRequest :=
  { name := toString chart_json.id
  , displayName := chart_json.slice_name
  , description := chart_json.description
  , chartType := get_standard_chart_type chart_json.viz_type
  , sourceUrl := clean_uri env.hostPort ++ chart_json.url
  , service := env.serviceName }

/-- Loop of `SupersetAPISource.yield_dashboard_chart`: for each chart id
of the dashboard, a cache miss logs a warning and continues; a hit yields
a chart request. -/
def api_yield_dashboard_chart_go (env : ApiEnv) (chart_ids : List Nat)
    (s : ApiState) : List CreateChartRequest × ApiState :=
  match chart_ids with
  | [] => ([], s)
  | chart_id :: rest =>
    match s.all_charts chart_id with
    | none =>
      api_yield_dashboard_chart_go env rest (addLog (chart_miss_msg chart_id) s)
    | some chart_json =>
      let r := api_yield_dashboard_chart_go env rest s
      (api_mk_chart_request env chart_json :: r.1, r.2)

/-- Embedding of `SupersetAPISource.yield_dashboard_chart`. -/
def api_yield_dashboard_chart (env : ApiEnv) (s : ApiState)
    (dashboard_details : DashboardDetails) :
    List CreateChartRequest × ApiState :=
  api_yield_dashboard_chart_go env (get_charts_of_dashboard dashboard_details) s

/-- Chart request built by the DB variant for a cached chart row; the
source URL is the synthesized explore-by-id URL. -/
def db_mk_chart_request (env : DbEnv) (chart_json : FetchChart) :
    CreateChartRequest :=
  { name := toString chart_json.id
  , displayName := chart_json.slice_name
  , description := chart_json.description
  , chartType := get_standard_chart_type chart_json.viz_type
  , sourceUrl := clean_uri env.hostPort ++ "/explore/?slice_id="
      ++ toString chart_json.id
  , service := env.serviceName }

/-- Loop of `SupersetDBSource.yield_dashboard_chart`. -/
def db_yield_dashboard_chart_go (env : DbEnv) (chart_ids : List Nat)
    (s : DbState) : List CreateChartRequest × DbState :=
  match chart_ids with
  | [] => ([], s)
  | chart_id :: rest =>
    match s.all_charts chart_id with
    | none =>
      db_yield_dashboard_chart_go env rest (addLog (chart_miss_msg chart_id) s)
    | some chart_json =>
      let r := db_yield_dashboard_chart_go env rest s
      (db_mk_chart_request env chart_json :: r.1, r.2)

/-- Embedding of `SupersetDBSource.yield_dashboard_chart`. -/
def db_yield_dashboard_chart (env : DbEnv) (s : DbState)
    (dashboard_details : DashboardDetails) :
    List CreateChartRequest × DbState :=
  db_yield_dashboard_chart_go env (get_charts_of_dashboard dashboard_details) s

/-- Embedding of `SupersetAPISource.yield_dashboard`: the dashboard
request whose charts list is built from the chart requests recorded in
the processing context. -/
def api_yield_dashboard (env : ApiEnv) (s : ApiState)
    (dashboard_details : DashboardDetails) :
    CreateDashboardRequest × ApiState :=
  ({ name := toString dashboard_details.id
   , displayName := dashboard_details.dashboard_title
   , sourceUrl := clean_uri env.hostPort ++ dashboard_details.url
   , charts := env.context_charts.map
       (fun chart => fqn_build_chart env.serviceName chart.name)
   , service := env.serviceName }, s)

/-- Embedding of `SupersetDBSource.yield_dashboard`. -/
def db_yield_dashboard (env : DbEnv) (s : DbState)
    (dashboard_details : DashboardDetails) :
    CreateDashboardRequest × DbState :=
  ({ name := toString dashboard_details.id
   , displayName := dashboard_details.dashboard_title
   , sourceUrl := clean_uri env.hostPort ++ "/superset/dashboard/"
       ++ toString dashboard_details.id ++ "/"
   , charts := env.context_charts.map
       (fun chart => fqn_build_chart env.serviceName chart.name)
   , service := env.serviceName }, s)

/-- Column built by `get_column_info` for one field of an API datasource
record, as passed to the `Column` constructor. -/
def api_column_of_field (field : DataSourceField) : Column :=
  { dataTypeDisplay := field.type
  , dataType := (parse_datatype_string (py_str_opt field.type)).dataType
  , name := field.id
  , displayName := field.column_name
  , description := field.description
  , dataLength := (parse_datatype_string (py_str_opt field.type)).dataLength }

/-- Loop of `SupersetAPISource.get_column_info`: each field is converted
independently; a failing `Column` construction is caught and that field
alone is skipped. -/
def api_get_column_info_go (fields : List DataSourceField) : List Column :=
  match fields with
  | [] => []
  | field :: rest =>
    match mk_column (api_column_of_field field) with
    | .ok col => col :: api_get_column_info_go rest
    | .error _ => api_get_column_info_go rest

/-- Embedding of `SupersetAPISource.get_column_info`:
`for field in data_source or []` treats an absent source as empty and
always returns a list. -/
def api_get_column_info (data_source : Option (List DataSourceField)) :
    List Column :=
  api_get_column_info_go
    (match data_source with
     | none => []
     | some fields => fields)

/-- Column built by `get_column_info` for one row of the DB column
listing. -/
def db_column_of_field (field : FetchColumn) : Column :=
  { dataTypeDisplay := field.type
  , dataType := (parse_datatype_string (py_str_opt field.type)).dataType
  , name := field.id
  , displayName := field.column_name
  , description := field.description
  , dataLength := (parse_datatype_string (py_str_opt field.type)).dataLength }

/-- Loop of `SupersetDBSource.get_column_info`. -/
def db_get_column_info_go (fields : List FetchColumn) : List Column :=
  match fields with
  | [] => []
  | field :: rest =>
    match mk_column (db_column_of_field field) with
    | .ok col => col :: db_get_column_info_go rest
    | .error _ => db_get_column_info_go rest

/-- Embedding of `SupersetDBSource.get_column_info`. -/
def db_get_column_info (data_source : Option (List FetchColumn)) :
    List Column :=
  db_get_column_info_go
    (match data_source with
     | none => []
     | some fields => fields)

/-- Embedding of `SupersetDBSource.get_column_list`: run the column query
for the lowercased table name. -/
def db_get_column_list (env : DbEnv) (table_name : String) :
    List FetchColumn :=
  env.fetch_columns table_name.toLower

/-- Data-model request built by the API variant for a fetched datasource
record, as passed to the `CreateDashboardDataModelRequest` constructor. -/
def api_mk_datamodel_payload (env : ApiEnv)
    (datasource_json : SupersetDatasource) : CreateDashboardDataModelRequest :=
  { name := datasource_json.id
  , displayName := datasource_json.result.table_name
  , service := env.serviceName
  , columns := api_get_column_info datasource_json.result.columns
  , dataModelType := "SupersetDataModel" }

/-- Loop of `SupersetAPISource.yield_datamodel` over the chart ids of one
dashboard. A cache miss logs a warning and continues. The datasource is
then fetched with no surrounding try: a raising fetch propagates, and a
fetch that yields nothing raises `AttributeError` at the attribute access
`datasource_json.result.table_name` in the filter check. A matching
exclude filter only records a filtered status event, with no skip. The
request construction is wrapped in try/except: a failure records a failed
status event and continues. -/
def api_yield_datamodel_go (env : ApiEnv) (chart_ids : List Nat)
    (s : ApiState) :
    Except PyExc (List CreateDashboardDataModelRequest × ApiState) :=
  match chart_ids with
  | [] => .ok ([], s)
  | chart_id :: rest =>
    match s.all_charts chart_id with
    | none =>
      api_yield_datamodel_go env rest (addLog (chart_miss_msg chart_id) s)
    | some chart_json =>
      match env.client.fetch_datasource chart_json.datasource_id with
      | .error e => .error e
      | .ok none => .error .attributeError
      | .ok (some datasource_json) =>
        let s :=
          if env.dataModelFilterMatches datasource_json.result.table_name then
            addStatus
              (.filtered datasource_json.result.table_name
                "Data model filtered out.") s
          else s
        match mk_datamodel_request (api_mk_datamodel_payload env datasource_json) with
        | .ok data_model_request =>
          let s := addStatus
            (.scanned ("Data Model Scanned: " ++ data_model_request.displayName)) s
          match api_yield_datamodel_go env rest s with
          | .error e => .error e
          | .ok r => .ok (data_model_request :: r.1, r.2)
        | .error _ =>
          api_yield_datamodel_go env rest
            (addStatus
              (.failed datasource_json.id
                ("Error yielding Data Model [" ++
                  datasource_json.result.table_name ++ "]")) s)

/-- Embedding of `SupersetAPISource.yield_datamodel`, gated by the
`includeDataModels` configuration flag. -/
def api_yield_datamodel (env : ApiEnv) (s : ApiState)
    (dashboard_details : DashboardDetails) :
    Except PyExc (List CreateDashboardDataModelRequest × ApiState) :=
  if env.includeDataModels then
    api_yield_datamodel_go env (get_charts_of_dashboard dashboard_details) s
  else
    .ok ([], s)

/-- Data-model request built by the DB variant for a cached chart row and
its column listing. -/
def db_mk_datamodel_payload (env : DbEnv) (chart_json : FetchChart)
    (col_names : List FetchColumn) : CreateDashboardDataModelRequest :=
  { name := chart_json.datasource_id
  , displayName := chart_json.table_name
  , service := env.serviceName
  , columns := db_get_column_info (some col_names)
  , dataModelType := "SupersetDataModel" }

/-- Loop of `SupersetDBSource.yield_datamodel` over the chart ids of one
dashboard. A cache miss logs a warning and continues; the filter check
reads the table name embedded in the cached chart row (no fetch); a
matching exclude filter only records a filtered status event, with no
skip; the column listing is queried, and the request construction is
wrapped in try/except. -/
def db_yield_datamodel_go (env : DbEnv) (chart_ids : List Nat)
    (s : DbState) :
    Except PyExc (List CreateDashboardDataModelRequest × DbState) :=
  match chart_ids with
  | [] => .ok ([], s)
  | chart_id :: rest =>
    match s.all_charts chart_id with
    | none =>
      db_yield_datamodel_go env rest (addLog (chart_miss_msg chart_id) s)
    | some chart_json =>
      let s :=
        if env.dataModelFilterMatches chart_json.table_name then
          addStatus (.filtered chart_json.table_name "Data model filtered out.") s
        else s
      let col_names := db_get_column_list env chart_json.table_name
      match mk_datamodel_request (db_mk_datamodel_payload env chart_json col_names) with
      | .ok data_model_request =>
        let s := addStatus
          (.scanned ("Data Model Scanned: " ++ data_model_request.displayName)) s
        match db_yield_datamodel_go env rest s with
        | .error e => .error e
        | .ok r => .ok (data_model_request :: r.1, r.2)
      | .error _ =>
        db_yield_datamodel_go env rest
          (addStatus
            (.failed chart_json.datasource_id
              ("Error yielding Data Model [" ++ chart_json.table_name ++ "]")) s)

/-- Embedding of `SupersetDBSource.yield_datamodel`, gated by the
`includeDataModels` configuration flag. -/
def db_yield_datamodel (env : DbEnv) (s : DbState)
    (dashboard_details : DashboardDetails) :
    Except PyExc (List CreateDashboardDataModelRequest × DbState) :=
  if env.includeDataModels then
    db_yield_datamodel_go env (get_charts_of_dashboard dashboard_details) s
  else
    .ok ([], s)

/-- Error message logged when building one data-model-to-dashboard edge
fails. -/
def lineage_err_msg (name : String) : String :=
  "Error to yield dashboard lineage details for data model name [" ++
    name ++ "]"

/-- Loop of `SupersetAPISource.yield_datamodel_dashboard_lineage`: one
edge per context data model; a failing edge construction is caught,
logged, and the loop continues. -/
def api_yield_dm_dash_lineage_go (env : ApiEnv) (dataModels : List EntityRef)
    (s : ApiState) : List AddLineageRequest × ApiState :=
  match dataModels with
  | [] => ([], s)
  | datamodel :: rest =>
    match get_add_lineage_request env.context_dashboard datamodel with
    | .ok req =>
      let r := api_yield_dm_dash_lineage_go env rest s
      (req :: r.1, r.2)
    | .error _ =>
      api_yield_dm_dash_lineage_go env rest (addLog (lineage_err_msg datamodel.name) s)

/-- Embedding of `SupersetAPISource.yield_datamodel_dashboard_lineage`. -/
def api_yield_datamodel_dashboard_lineage (env : ApiEnv) (s : ApiState) :
    List AddLineageRequest × ApiState :=
  api_yield_dm_dash_lineage_go env env.context_dataModels s

/-- Loop of `SupersetDBSource.yield_datamodel_dashboard_lineage`. -/
def db_yield_dm_dash_lineage_go (env : DbEnv) (dataModels : List EntityRef)
    (s : DbState) : List AddLineageRequest × DbState :=
  match dataModels with
  | [] => ([], s)
  | datamodel :: rest =>
    match get_add_lineage_request env.context_dashboard datamodel with
    | .ok req =>
      let r := db_yield_dm_dash_lineage_go env rest s
      (req :: r.1, r.2)
    | .error _ =>
      db_yield_dm_dash_lineage_go env rest (addLog (lineage_err_msg datamodel.name) s)

/-- Embedding of `SupersetDBSource.yield_datamodel_dashboard_lineage`. -/
def db_yield_datamodel_dashboard_lineage (env : DbEnv) (s : DbState) :
    List AddLineageRequest × DbState :=
  db_yield_dm_dash_lineage_go env env.context_dataModels s

/-- The list of page indices `p, p+1, ..., p+n-1`. -/
def pageList (p n : Nat) : List Nat :=
  match n with
  | 0 => []
  | Nat.succ m => p :: pageList (p + 1) m

/-- The (id, chart) pairs stored by one page, in storage order. -/
def pagePairs (page : ChartPage) : List (Nat × SupersetChart) :=
  (List.range page.result.length).map
    (fun index => (page.ids.getD index 0, page.result.getD index default))

/-- All (id, chart) pairs stored by `prepare`, across pages in fetch
order. -/
def allPairs (client : SupersetAPIClient) : List (Nat × SupersetChart) :=
  (pageList 0 (client.fetch_total_charts / 25 + 1)).flatMap
    (fun p => pagePairs (client.fetch_charts p 25))

/-! ### Concrete test fixtures -/

/-- State with an empty chart cache. -/
def empty_api_state : ApiState :=
  { all_charts := fun _ => none, status := [], logs := [] }

/-- State with an empty chart cache (DB variant). -/
def empty_db_state : DbState :=
  { all_charts := fun _ => none, status := [], logs := [] }

/-- A datasource record whose table name matches the exclude filter used
in the fixtures. -/
def c1_api_datasource : SupersetDatasource :=
  { id := "ds10"
  , result :=
    { database := { id := 3 }
    , table_name := "secret_table"
    , table_schema := some "public"
    , columns := some [] } }

/-- A cached chart record referencing the fixture datasource. -/
def c1_api_chart : SupersetChart :=
  { id := 1, slice_name := "chart one", description := none
  , viz_type := "table", url := "/chart/1", datasource_id := "10" }

/-- API client whose datasource fetch succeeds but whose database fetch
reports a missing record. -/
def c1_api_client : SupersetAPIClient :=
  { fetch_total_charts := 0
  , fetch_charts := fun _ _ => { ids := [], result := [] }
  , fetch_datasource := fun _ => .ok (some c1_api_datasource)
  , fetch_database := fun _ => .ok none }

/-- API environment whose exclude filter matches the fixture table. -/
def c1_api_env : ApiEnv :=
  { client := c1_api_client
  , hostPort := "http://superset"
  , serviceName := "dashsvc"
  , includeDataModels := true
  , dataModelFilterMatches := fun t => t == "secret_table"
  , context_charts := []
  , context_dataModels := []
  , context_dashboard := { id := some "dash7", name := "7" } }

/-- State whose chart cache holds exactly the fixture chart under id 1. -/
def c1_api_state : ApiState :=
  { all_charts := fun k => if k = 1 then some c1_api_chart else none
  , status := [], logs := [] }

/-- A dashboard referencing chart id 1. -/
def c1_dd : DashboardDetails :=
  { id := 7, dashboard_title := "Sales", url := "/dash/7", chart_ids := [1] }

/-- A cached DB chart row whose table name matches the exclude filter. -/
def c1_db_chart : FetchChart :=
  { id := 1, slice_name := "chart one", description := none
  , viz_type := "table", datasource_id := "20", table_name := "secret_table"
  , table_schema := some "public", sqlalchemy_uri := some "postgresql://host/db1" }

/-- DB environment whose exclude filter matches the fixture table. -/
def c1_db_env : DbEnv :=
  { fetch_all_charts := []
  , fetch_columns := fun _ => []
  , make_url := fun _ => .ok { database := some "db1" }
  , hostPort := "http://superset"
  , serviceName := "dashsvc"
  , includeDataModels := true
  , dataModelFilterMatches := fun t => t == "secret_table"
  , context_charts := []
  , context_dataModels := []
  , context_dashboard := { id := some "dash7", name := "7" } }

/-- State whose chart cache holds exactly the fixture DB row under id 1. -/
def c1_db_state : DbState :=
  { all_charts := fun k => if k = 1 then some c1_db_chart else none
  , status := [], logs := [] }

/-- A database service with no configured database override. -/
def c2_svc : DatabaseService := { name := "warehouse", configuredDatabase := none }

/-- API client whose datasource fetch raises a KeyError. -/
def c2_key_client : SupersetAPIClient :=
  { fetch_total_charts := 0
  , fetch_charts := fun _ _ => { ids := [], result := [] }
  , fetch_datasource := fun _ => .error .keyError
  , fetch_database := fun _ => .ok none }

/-- DB environment whose connection string parsing raises. -/
def c2_db_env : DbEnv :=
  { fetch_all_charts := []
  , fetch_columns := fun _ => []
  , make_url := fun _ => .error .validationError
  , hostPort := "http://superset"
  , serviceName := "dashsvc"
  , includeDataModels := true
  , dataModelFilterMatches := fun _ => false
  , context_charts := []
  , context_dataModels := []
  , context_dashboard := { id := none, name := "7" } }

/-- API client whose datasource fetch yields nothing (a lookup miss). -/
def c3_api_client : SupersetAPIClient :=
  { fetch_total_charts := 0
  , fetch_charts := fun _ _ => { ids := [], result := [] }
  , fetch_datasource := fun _ => .ok none
  , fetch_database := fun _ => .ok none }

/-- API environment over the lookup-miss client. -/
def c3_api_env : ApiEnv :=
  { client := c3_api_client
  , hostPort := "http://superset"
  , serviceName := "dashsvc"
  , includeDataModels := true
  , dataModelFilterMatches := fun _ => false
  , context_charts := []
  , context_dataModels := []
  , context_dashboard := { id := some "dash7", name := "7" } }

/-- Three datasource fields, the middle one with an unparsable type. -/
def c4_fields : List DataSourceField :=
  [ { id := "f1", column_name := "a", description := none, type := some "VARCHAR(45)" }
  , { id := "f2", column_name := "b", description := none, type := some "MYSTERY TYPE" }
  , { id := "f3", column_name := "c", description := none, type := some "INT" } ]

/-- Three DB column rows, the middle one with an unparsable type. -/
def c4_rows : List FetchColumn :=
  [ { id := "g1", column_name := "a", description := none, type := some "VARCHAR(45)" }
  , { id := "g2", column_name := "b", description := none, type := some "MYSTERY TYPE" }
  , { id := "g3", column_name := "c", description := none, type := some "INT" } ]

/-- The chart request the API variant emits for the fixture chart. -/
def c5_chart_request : CreateChartRequest :=
  { name := "1", displayName := "chart one", description := none
  , chartType := "Table", sourceUrl := "http://superset/chart/1"
  , service := "dashsvc" }

/-- API environment whose context holds exactly the emitted chart. -/
def c5_api_env : ApiEnv :=
  { client := c1_api_client
  , hostPort := "http://superset"
  , serviceName := "dashsvc"
  , includeDataModels := true
  , dataModelFilterMatches := fun _ => false
  , context_charts := [c5_chart_request]
  , context_dataModels := []
  , context_dashboard := { id := some "dash7", name := "7" } }

/-- The chart request the DB variant emits for the fixture row. -/
def c5_db_chart_request : CreateChartRequest :=
  { name := "1", displayName := "chart one", description := none
  , chartType := "Table", sourceUrl := "http://superset/explore/?slice_id=1"
  , service := "dashsvc" }

/-- DB environment whose context holds exactly the emitted chart. -/
def c5_db_env : DbEnv :=
  { c1_db_env with
    context_charts := [c5_db_chart_request]
  , dataModelFilterMatches := fun _ => false }

/-- First chart of the two-page listing fixture. -/
def c6_chartA : SupersetChart :=
  { id := 100, slice_name := "A", description := none, viz_type := "table"
  , url := "/a", datasource_id := "1" }

/-- Second chart of the two-page listing fixture. -/
def c6_chartB : SupersetChart :=
  { id := 200, slice_name := "B", description := none, viz_type := "table"
  , url := "/b", datasource_id := "2" }

/-- API client reporting 26 charts over two pages. -/
def c6_client : SupersetAPIClient :=
  { fetch_total_charts := 26
  , fetch_charts := fun p _ =>
      if p = 0 then { ids := [100], result := [c6_chartA] }
      else { ids := [200], result := [c6_chartB] }
  , fetch_datasource := fun _ => .ok none
  , fetch_database := fun _ => .ok none }

/-- API environment over the two-page listing client. -/
def c6_env : ApiEnv :=
  { client := c6_client
  , hostPort := "http://superset", serviceName := "dashsvc"
  , includeDataModels := false
  , dataModelFilterMatches := fun _ => false
  , context_charts := [], context_dataModels := []
  , context_dashboard := { id := some "dash7", name := "7" } }

/-- The result of `yield_datamodel` on the C1 API fixture. -/
def c8_api_expected : List CreateDashboardDataModelRequest × ApiState :=
  ( [ { name := "ds10", displayName := "secret_table", service := "dashsvc"
      , columns := [], dataModelType := "SupersetDataModel" } ]
  , { all_charts := c1_api_state.all_charts
    , status :=
        [ .filtered "secret_table" "Data model filtered out."
        , .scanned "Data Model Scanned: secret_table" ]
    , logs := [] } )

/-- The result of `yield_datamodel` on the C1 DB fixture. -/
def c8_db_expected : List CreateDashboardDataModelRequest × DbState :=
  ( [ { name := "20", displayName := "secret_table", service := "dashsvc"
      , columns := [], dataModelType := "SupersetDataModel" } ]
  , { all_charts := c1_db_state.all_charts
    , status :=
        [ .filtered "secret_table" "Data model filtered out."
        , .scanned "Data Model Scanned: secret_table" ]
    , logs := [] } )

/-- A context data model with a server id. -/
def c9_dm_good : EntityRef := { id := some "dmA", name := "modelA" }

/-- A malformed context data model without a server id. -/
def c9_dm_bad : EntityRef := { id := none, name := "modelB" }

/-- Another context data model with a server id. -/
def c9_dm_good2 : EntityRef := { id := some "dmC", name := "modelC" }

/-- API environment whose context holds three data models, the middle one
malformed. -/
def c9_api_env : ApiEnv :=
  { client := c3_api_client
  , hostPort := "http://superset", serviceName := "dashsvc"
  , includeDataModels := true
  , dataModelFilterMatches := fun _ => false
  , context_charts := []
  , context_dataModels := [c9_dm_good, c9_dm_bad, c9_dm_good2]
  , context_dashboard := { id := some "dash7", name := "7" } }

/-! ### Helper lemmas -/

theorem mem_pageList {q : Nat} : ∀ {n p : Nat}, q ∈ pageList p n ↔ p ≤ q ∧ q < p + n := by
  intro n
  induction n with
  | zero =>
    intro p
    simp only [pageList, List.not_mem_nil, false_iff]
    omega
  | succ m ih =>
    intro p
    simp only [pageList, List.mem_cons, ih]
    omega

theorem api_prepare_go_eq (client : SupersetAPIClient) (total : Nat) :
    ∀ (n p : Nat) (d : Nat → Option SupersetChart), total / 25 + 1 - p = n →
      api_prepare_go client total p d =
        (pageList p n).foldl
          (fun acc q => insertPage acc (client.fetch_charts q 25)) d := by
  intro n
  induction n with
  | zero =>
    intro p d hp
    rw [api_prepare_go, dif_neg]
    · rfl
    · omega
  | succ m ih =>
    intro p d hp
    rw [api_prepare_go, dif_pos (by omega : p * 25 ≤ total)]
    simp only [pageList, List.foldl_cons]
    exact ih (p + 1) _ (by omega)

theorem insertPage_eq_foldl (d : Nat → Option SupersetChart) (page : ChartPage) :
    insertPage d page =
      (pagePairs page).foldl (fun acc kv => dictInsert acc kv.1 kv.2) d := by
  unfold insertPage pagePairs
  rw [List.foldl_map]

theorem foldl_bind_eq {α β γ : Type} (g : γ → α → γ) (f : β → List α) :
    ∀ (l : List β) (init : γ),
      (l.flatMap f).foldl g init = l.foldl (fun acc b => (f b).foldl g acc) init := by
  intro l
  induction l with
  | nil => intro init; rfl
  | cons b rest ih =>
    intro init
    simp only [List.flatMap_cons, List.foldl_append, List.foldl_cons]
    exact ih _

theorem foldl_dictInsert_not_mem {α : Type} :
    ∀ (kvs : List (Nat × α)) (d : Nat → Option α) (k : Nat),
      (∀ kv ∈ kvs, kv.1 ≠ k) →
      (kvs.foldl (fun acc kv => dictInsert acc kv.1 kv.2) d) k = d k := by
  intro kvs
  induction kvs with
  | nil => intro d k _; rfl
  | cons kv rest ih =>
    intro d k h
    simp only [List.foldl_cons]
    rw [ih _ k (fun kv2 hm => h kv2 (List.mem_cons_of_mem _ hm))]
    unfold dictInsert
    rw [if_neg]
    exact fun hk => h kv (List.mem_cons_self _ _) hk.symm

theorem foldl_dictInsert_lookup {α : Type} :
    ∀ (kvs : List (Nat × α)) (d : Nat → Option α) (k : Nat) (v : α),
      (k, v) ∈ kvs → (kvs.map Prod.fst).Nodup →
      (kvs.foldl (fun acc kv => dictInsert acc kv.1 kv.2) d) k = some v := by
  intro kvs
  induction kvs with
  | nil => intro d k v hm _; cases hm
  | cons kv rest ih =>
    intro d k v hm hnd
    simp only [List.map_cons, List.nodup_cons] at hnd
    rcases List.mem_cons.mp hm with heq | hmem
    · have hk : kv.1 = k := by rw [← heq]
      have hv : kv.2 = v := by rw [← heq]
      simp only [List.foldl_cons]
      rw [foldl_dictInsert_not_mem rest _ k ?hrest]
      case hrest =>
        intro kv2 hm2 hk2
        exact hnd.1 (hk ▸ hk2 ▸ List.mem_map_of_mem Prod.fst hm2)
      unfold dictInsert
      rw [if_pos hk.symm, hv]
    · simp only [List.foldl_cons]
      exact ih _ k v hmem hnd.2

theorem api_ydc_go_fst (env : ApiEnv) :
    ∀ (ids : List Nat) (s : ApiState),
      (api_yield_dashboard_chart_go env ids s).1 =
        ids.filterMap
          (fun cid => (s.all_charts cid).map (api_mk_chart_request env)) := by
  intro ids
  induction ids with
  | nil => intro s; rfl
  | cons cid rest ih =>
    intro s
    simp only [api_yield_dashboard_chart_go]
    cases h : s.all_charts cid with
    | none =>
      simp only [h, List.filterMap_cons, Option.map_none']
      exact ih _
    | some cj =>
      simp only [h, List.filterMap_cons, Option.map_some']
      rw [ih s]

theorem api_ydc_go_all_charts (env : ApiEnv) :
    ∀ (ids : List Nat) (s : ApiState),
      (api_yield_dashboard_chart_go env ids s).2.all_charts = s.all_charts := by
  intro ids
  induction ids with
  | nil => intro s; rfl
  | cons cid rest ih =>
    intro s
    simp only [api_yield_dashboard_chart_go]
    cases h : s.all_charts cid with
    | none => exact ih _
    | some cj => exact ih _

theorem db_ydc_go_fst (env : DbEnv) :
    ∀ (ids : List Nat) (s : DbState),
      (db_yield_dashboard_chart_go env ids s).1 =
        ids.filterMap
          (fun cid => (s.all_charts cid).map (db_mk_chart_request env)) := by
  intro ids
  induction ids with
  | nil => intro s; rfl
  | cons cid rest ih =>
    intro s
    simp only [db_yield_dashboard_chart_go]
    cases h : s.all_charts cid with
    | none =>
      simp only [h, List.filterMap_cons, Option.map_none']
      exact ih _
    | some cj =>
      simp only [h, List.filterMap_cons, Option.map_some']
      rw [ih s]

theorem db_ydc_go_all_charts (env : DbEnv) :
    ∀ (ids : List Nat) (s : DbState),
      (db_yield_dashboard_chart_go env ids s).2.all_charts = s.all_charts := by
  intro ids
  induction ids with
  | nil => intro s; rfl
  | cons cid rest ih =>
    intro s
    simp only [db_yield_dashboard_chart_go]
    cases h : s.all_charts cid with
    | none => exact ih _
    | some cj => exact ih _

theorem all_charts_addLog {χ : Type} (m : String) (s : SrcState χ) :
    (addLog m s).all_charts = s.all_charts := rfl

theorem all_charts_addStatus {χ : Type} (e : StatusEvent) (s : SrcState χ) :
    (addStatus e s).all_charts = s.all_charts := rfl

theorem all_charts_if {χ : Type} (b : Bool) (e : StatusEvent) (s : SrcState χ) :
    (if b then addStatus e s else s).all_charts = s.all_charts := by
  cases b <;> rfl

theorem api_ydm_go_all_charts (env : ApiEnv) :
    ∀ (ids : List Nat) (s : ApiState)
      (r : List CreateDashboardDataModelRequest × ApiState),
      api_yield_datamodel_go env ids s = .ok r →
      r.2.all_charts = s.all_charts := by
  intro ids
  induction ids with
  | nil =>
    intro s r h
    simp only [api_yield_datamodel_go] at h
    cases h
    rfl
  | cons cid rest ih =>
    intro s r h
    cases hc : s.all_charts cid with
    | none =>
      simp only [api_yield_datamodel_go, hc] at h
      exact ih (addLog (chart_miss_msg cid) s) r h
    | some cj =>
      simp only [api_yield_datamodel_go, hc] at h
      cases hds : env.client.fetch_datasource cj.datasource_id with
      | error e => rw [hds] at h; simp at h
      | ok dsopt =>
        rw [hds] at h
        cases dsopt with
        | none => simp at h
        | some dsj =>
          simp only [] at h
          cases hmk : mk_datamodel_request (api_mk_datamodel_payload env dsj) with
          | ok req =>
            rw [hmk] at h
            simp only [] at h
            split at h
            · simp at h
            · cases h
              rename_i r0 heq
              rw [ih _ r0 heq]
              exact all_charts_if _ _ _
          | error e =>
            rw [hmk] at h
            simp only [] at h
            rw [ih _ r h]
            exact all_charts_if _ _ _

theorem db_ydm_go_ok (env : DbEnv) :
    ∀ (ids : List Nat) (s : DbState),
      ∃ r, db_yield_datamodel_go env ids s = .ok r ∧
        r.2.all_charts = s.all_charts := by
  intro ids
  induction ids with
  | nil => intro s; exact ⟨([], s), rfl, rfl⟩
  | cons cid rest ih =>
    intro s
    cases hc : s.all_charts cid with
    | none =>
      obtain ⟨r, hr, ha⟩ := ih (addLog (chart_miss_msg cid) s)
      refine ⟨r, ?_, ha⟩
      simp only [db_yield_datamodel_go, hc]
      exact hr
    | some cj =>
      cases hmk : mk_datamodel_request
          (db_mk_datamodel_payload env cj
            (db_get_column_list env cj.table_name)) with
      | ok req =>
        obtain ⟨r, hr, ha⟩ := ih
          (addStatus (.scanned ("Data Model Scanned: " ++ req.displayName))
            (if env.dataModelFilterMatches cj.table_name then
              addStatus (.filtered cj.table_name "Data model filtered out.") s
            else s))
        refine ⟨(req :: r.1, r.2), ?_, ?_⟩
        · simp only [db_yield_datamodel_go, hc, hmk, hr]
        · rw [ha]
          exact all_charts_if _ _ _
      | error e =>
        obtain ⟨r, hr, ha⟩ := ih
          (addStatus
            (.failed cj.datasource_id
              ("Error yielding Data Model [" ++ cj.table_name ++ "]"))
            (if env.dataModelFilterMatches cj.table_name then
              addStatus (.filtered cj.table_name "Data model filtered out.") s
            else s))
        refine ⟨r, ?_, ?_⟩
        · simp only [db_yield_datamodel_go, hc, hmk]
          exact hr
        · rw [ha]
          exact all_charts_if _ _ _

theorem api_lin_go_fst (env : ApiEnv) :
    ∀ (dms : List EntityRef) (s : ApiState),
      (api_yield_dm_dash_lineage_go env dms s).1 =
        dms.filterMap
          (fun dm => (get_add_lineage_request env.context_dashboard dm).toOption) := by
  intro dms
  induction dms with
  | nil => intro s; rfl
  | cons dm rest ih =>
    intro s
    simp only [api_yield_dm_dash_lineage_go]
    cases h : get_add_lineage_request env.context_dashboard dm with
    | ok req =>
      have h2 : (get_add_lineage_request env.context_dashboard dm).toOption
          = some req := by rw [h]; rfl
      simp only [List.filterMap_cons, h, h2]
      rw [ih s]
      rfl
    | error e =>
      have h2 : (get_add_lineage_request env.context_dashboard dm).toOption
          = none := by rw [h]; rfl
      simp only [List.filterMap_cons, h, h2]
      exact ih _

theorem api_lin_go_all_charts (env : ApiEnv) :
    ∀ (dms : List EntityRef) (s : ApiState),
      (api_yield_dm_dash_lineage_go env dms s).2.all_charts = s.all_charts := by
  intro dms
  induction dms with
  | nil => intro s; rfl
  | cons dm rest ih =>
    intro s
    simp only [api_yield_dm_dash_lineage_go]
    cases h : get_add_lineage_request env.context_dashboard dm with
    | ok req => exact ih _
    | error e => exact ih _

theorem db_lin_go_fst (env : DbEnv) :
    ∀ (dms : List EntityRef) (s : DbState),
      (db_yield_dm_dash_lineage_go env dms s).1 =
        dms.filterMap
          (fun dm => (get_add_lineage_request env.context_dashboard dm).toOption) := by
  intro dms
  induction dms with
  | nil => intro s; rfl
  | cons dm rest ih =>
    intro s
    simp only [db_yield_dm_dash_lineage_go]
    cases h : get_add_lineage_request env.context_dashboard dm with
    | ok req =>
      have h2 : (get_add_lineage_request env.context_dashboard dm).toOption
          = some req := by rw [h]; rfl
      simp only [List.filterMap_cons, h, h2]
      rw [ih s]
      rfl
    | error e =>
      have h2 : (get_add_lineage_request env.context_dashboard dm).toOption
          = none := by rw [h]; rfl
      simp only [List.filterMap_cons, h, h2]
      exact ih _

theorem db_lin_go_all_charts (env : DbEnv) :
    ∀ (dms : List EntityRef) (s : DbState),
      (db_yield_dm_dash_lineage_go env dms s).2.all_charts = s.all_charts := by
  intro dms
  induction dms with
  | nil => intro s; rfl
  | cons dm rest ih =>
    intro s
    simp only [db_yield_dm_dash_lineage_go]
    cases h : get_add_lineage_request env.context_dashboard dm with
    | ok req => exact ih _
    | error e => exact ih _

theorem api_gci_go_eq_map :
    ∀ (fields : List DataSourceField), (∀ f ∈ fields, f.id ≠ "") →
      api_get_column_info_go fields = fields.map api_column_of_field := by
  intro fields
  induction fields with
  | nil => intro _; rfl
  | cons field rest ih =>
    intro h
    simp only [api_get_column_info_go, mk_column]
    rw [if_neg]
    · simp only [List.map_cons]
      rw [ih (fun f hf => h f (List.mem_cons_of_mem _ hf))]
    · exact h field (List.mem_cons_self _ _)

theorem db_gci_go_eq_map :
    ∀ (fields : List FetchColumn), (∀ f ∈ fields, f.id ≠ "") →
      db_get_column_info_go fields = fields.map db_column_of_field := by
  intro fields
  induction fields with
  | nil => intro _; rfl
  | cons field rest ih =>
    intro h
    simp only [db_get_column_info_go, mk_column]
    rw [if_neg]
    · simp only [List.map_cons]
      rw [ih (fun f hf => h f (List.mem_cons_of_mem _ hf))]
    · exact h field (List.mem_cons_self _ _)

/-! ### Claim theorems -/

/-- C10: `get_column_info` in both backend variants always returns a list
and never a missing value: by construction of the embedded body
(`for field in data_source or []`) its codomain is a plain list, and an
absent or empty column source yields the empty list. -/
theorem C10_get_column_info_never_none :
    api_get_column_info none = [] ∧ api_get_column_info (some []) = [] ∧
    db_get_column_info none = [] ∧ db_get_column_info (some []) = [] :=
  ⟨rfl, rfl, rfl, rfl⟩

/-- C4: `get_column_info` builds each Column independently per field: when
every field has a usable name, the output is exactly the per-field map, so
the column count equals the field count, and each built column carries
exactly the data type that the (never-raising) type inference produced for
its own field — a single unparsable type string yields the catch-all kind
for that column only and never reduces the column count. -/
theorem C4_columns_built_independently :
    ∀ (fields : List DataSourceField) (rows : List FetchColumn),
      (∀ f ∈ fields, f.id ≠ "") → (∀ g ∈ rows, g.id ≠ "") →
      api_get_column_info (some fields) = fields.map api_column_of_field ∧
      (api_get_column_info (some fields)).length = fields.length ∧
      db_get_column_info (some rows) = rows.map db_column_of_field ∧
      (db_get_column_info (some rows)).length = rows.length ∧
      (∀ f : DataSourceField, (api_column_of_field f).dataType =
        (parse_datatype_string (py_str_opt f.type)).dataType) ∧
      (∀ g : FetchColumn, (db_column_of_field g).dataType =
        (parse_datatype_string (py_str_opt g.type)).dataType) := by
  intro fields rows hf hg
  have h1 : api_get_column_info (some fields) = fields.map api_column_of_field :=
    api_gci_go_eq_map fields hf
  have h2 : db_get_column_info (some rows) = rows.map db_column_of_field :=
    db_gci_go_eq_map rows hg
  refine ⟨h1, ?_, h2, ?_, fun f => rfl, fun g => rfl⟩
  · rw [h1, List.length_map]
  · rw [h2, List.length_map]

/-- Witness for C4 at the concrete three-column fixtures: one field has an
unparsable type string, yet three columns come out in both variants and
the unparsable one carries the catch-all kind. -/
theorem C4_witness :
    (api_get_column_info (some c4_fields)).length = 3 ∧
    (api_get_column_info (some c4_fields)).map (fun c => c.dataType)
      = ["VARCHAR", "UNKNOWN", "INT"] ∧
    (db_get_column_info (some c4_rows)).length = 3 ∧
    (db_get_column_info (some c4_rows)).map (fun c => c.dataType)
      = ["VARCHAR", "UNKNOWN", "INT"] := by
  have h := C4_columns_built_independently c4_fields c4_rows
    (by decide) (by decide)
  refine ⟨?_, ?_, ?_, ?_⟩
  · rw [h.2.1]; rfl
  · rw [h.1]; rfl
  · rw [h.2.2.2.1]; rfl
  · rw [h.2.2.1]; rfl

/-- C7: the datasource resolver of each variant is a pure function of its
inputs (the backend client or engine environment, the datasource id or
chart record, and the database-service entity), so two calls with
identical inputs return the identical FQN-or-None outcome. -/
theorem C7_resolver_idempotent :
    (∀ (client client2 : SupersetAPIClient) (d d2 : String)
       (svc svc2 : DatabaseService),
      client = client2 → d = d2 → svc = svc2 →
      api_get_datasource_fqn client d svc =
        api_get_datasource_fqn client2 d2 svc2) ∧
    (∀ (env env2 : DbEnv) (c c2 : FetchChart) (svc svc2 : DatabaseService),
      env = env2 → c = c2 → svc = svc2 →
      db_get_datasource_fqn env c svc = db_get_datasource_fqn env2 c2 svc2) := by
  constructor
  · intro client client2 d d2 svc svc2 h1 h2 h3
    rw [h1, h2, h3]
  · intro env env2 c c2 svc svc2 h1 h2 h3
    rw [h1, h2, h3]

/-- Witness for C7 at concrete fixture inputs. -/
theorem C7_witness :
    api_get_datasource_fqn c1_api_client "10" c2_svc =
      api_get_datasource_fqn c1_api_client "10" c2_svc ∧
    db_get_datasource_fqn c1_db_env c1_db_chart c2_svc =
      db_get_datasource_fqn c1_db_env c1_db_chart c2_svc :=
  ⟨C7_resolver_idempotent.1 c1_api_client c1_api_client "10" "10" c2_svc c2_svc
      rfl rfl rfl,
   C7_resolver_idempotent.2 c1_db_env c1_db_env c1_db_chart c1_db_chart
      c2_svc c2_svc rfl rfl rfl⟩

/-- Counterexample to C2 as stated: in the API variant, when the
datasource record is found but the database fetch yields nothing, the
attribute access on the missing record raises an AttributeError that the
`except KeyError` handler does not catch, so the resolver raises instead
of returning None. -/
theorem C2_counterexample_api_raises :
    api_get_datasource_fqn c1_api_client "10" c2_svc =
      .error .attributeError := rfl

/-- C2 amended: the DB variant returns None rather than raising for every
exception kind its lookup chain can produce, and the API variant does so
exactly for KeyError — any other exception kind raised inside its body
propagates out of the resolver. -/
theorem C2_amended_none_only_for_keyError :
    (∀ (client : SupersetAPIClient) (datasource_id : String)
       (svc : DatabaseService),
      api_get_datasource_fqn_body client datasource_id svc = .error .keyError →
      api_get_datasource_fqn client datasource_id svc = .ok none) ∧
    (∀ (client : SupersetAPIClient) (datasource_id : String)
       (svc : DatabaseService) (e : PyExc), e ≠ .keyError →
      api_get_datasource_fqn_body client datasource_id svc = .error e →
      api_get_datasource_fqn client datasource_id svc = .error e) ∧
    (∀ (env : DbEnv) (chart_json : FetchChart) (svc : DatabaseService)
       (e : PyExc),
      db_get_datasource_fqn_body env chart_json svc = .error e →
      db_get_datasource_fqn env chart_json svc = none) := by
  refine ⟨?_, ?_, ?_⟩
  · intro client datasource_id svc h
    unfold api_get_datasource_fqn
    rw [h]
  · intro client datasource_id svc e he h
    unfold api_get_datasource_fqn
    rw [h]
    cases e with
    | keyError => exact absurd rfl he
    | attributeError => rfl
    | validationError => rfl
  · intro env chart_json svc e h
    unfold db_get_datasource_fqn
    rw [h]

/-- Witness for the amended C2: a KeyError-raising API client resolves to
None, and a DB chain whose connection-string parsing raises resolves to
None. -/
theorem C2_amended_witness :
    api_get_datasource_fqn c2_key_client "5" c2_svc = .ok none ∧
    db_get_datasource_fqn c2_db_env c1_db_chart c2_svc = none :=
  ⟨C2_amended_none_only_for_keyError.1 c2_key_client "5" c2_svc rfl,
   C2_amended_none_only_for_keyError.2.2 c2_db_env c1_db_chart c2_svc
     .validationError rfl⟩

/-- C1 failing-input evaluation: in both variants, a datasource whose
table name matches the exclude filter is marked filtered in the status
sink, yet the `CreateDashboardDataModelRequest` for it is still emitted —
the source records the filter event without skipping (there is no
`continue` after `status.filter`), contradicting the skip its own status
message announces. -/
theorem C1_filter_marked_but_still_emitted :
    ((api_yield_datamodel c1_api_env c1_api_state c1_dd).map
        (fun r => (r.1.map (fun q => q.displayName), r.2.status)))
      = Except.ok (["secret_table"],
          [StatusEvent.filtered "secret_table" "Data model filtered out.",
           StatusEvent.scanned "Data Model Scanned: secret_table"]) ∧
    ((db_yield_datamodel c1_db_env c1_db_state c1_dd).map
        (fun r => (r.1.map (fun q => q.displayName), r.2.status)))
      = Except.ok (["secret_table"],
          [StatusEvent.filtered "secret_table" "Data model filtered out.",
           StatusEvent.scanned "Data Model Scanned: secret_table"]) :=
  ⟨rfl, rfl⟩

/-- Counterexample to C3 as stated: in the API variant, a datasource
fetch that yields nothing inside `yield_datamodel` raises an uncaught
AttributeError (the record is dereferenced in the filter check before any
try block), so the lookup miss propagates out of `yield_datamodel`
instead of being skipped. -/
theorem C3_counterexample_datasource_miss_raises :
    api_yield_datamodel c3_api_env c1_api_state c1_dd =
      .error .attributeError := rfl

/-- C3 amended: a chart id absent from the chart cache is skipped with a
logged warning and processing continues to the next id, in chart emission
and data-model emission of both variants; and the DB variant of
`yield_datamodel` never lets any lookup miss escape as an exception. (In
the API variant, a datasource fetch that yields nothing does escape; see
the counterexample.) -/
theorem C3_amended_lookup_miss_handling :
    (∀ (env : ApiEnv) (s : ApiState) (cid : Nat) (rest : List Nat),
      s.all_charts cid = none →
      api_yield_dashboard_chart_go env (cid :: rest) s =
        api_yield_dashboard_chart_go env rest (addLog (chart_miss_msg cid) s) ∧
      api_yield_datamodel_go env (cid :: rest) s =
        api_yield_datamodel_go env rest (addLog (chart_miss_msg cid) s)) ∧
    (∀ (env : DbEnv) (s : DbState) (cid : Nat) (rest : List Nat),
      s.all_charts cid = none →
      db_yield_dashboard_chart_go env (cid :: rest) s =
        db_yield_dashboard_chart_go env rest (addLog (chart_miss_msg cid) s) ∧
      db_yield_datamodel_go env (cid :: rest) s =
        db_yield_datamodel_go env rest (addLog (chart_miss_msg cid) s)) ∧
    (∀ (env : DbEnv) (s : DbState) (dd : DashboardDetails),
      ∃ r, db_yield_datamodel env s dd = .ok r) := by
  refine ⟨?_, ?_, ?_⟩
  · intro env s cid rest h
    constructor
    · simp only [api_yield_dashboard_chart_go, h]
    · simp only [api_yield_datamodel_go, h]
  · intro env s cid rest h
    constructor
    · simp only [db_yield_dashboard_chart_go, h]
    · simp only [db_yield_datamodel_go, h]
  · intro env s dd
    unfold db_yield_datamodel
    split
    · obtain ⟨r, hr, _⟩ := db_ydm_go_ok env (get_charts_of_dashboard dd) s
      exact ⟨r, hr⟩
    · exact ⟨([], s), rfl⟩

/-- Witness for the amended C3: an empty cache skips chart id 5 with the
warning log in both loops, and the DB data-model pass completes without an
exception on the fixture dashboard. -/
theorem C3_amended_witness :
    (api_yield_dashboard_chart_go c3_api_env [5] empty_api_state =
      api_yield_dashboard_chart_go c3_api_env []
        (addLog (chart_miss_msg 5) empty_api_state)) ∧
    (∃ r, db_yield_datamodel c1_db_env empty_db_state c1_dd = .ok r) :=
  ⟨(C3_amended_lookup_miss_handling.1 c3_api_env empty_api_state 5 [] rfl).1,
   C3_amended_lookup_miss_handling.2.2 c1_db_env empty_db_state c1_dd⟩

/-- C5: whenever the processing context holds exactly the chart requests
emitted by `yield_dashboard_chart` for the dashboard (which is what the
surrounding framework records there), the emitted dashboard request
references exactly the chart FQNs (service name joined with chart name)
of those successfully emitted charts — and those are precisely the cache
hits among the dashboard chart ids, so an id skipped on a cache miss
contributes no FQN. -/
theorem C5_dashboard_charts_exact :
    (∀ (env : ApiEnv) (s : ApiState) (dd : DashboardDetails),
      env.context_charts = (api_yield_dashboard_chart env s dd).1 →
      (api_yield_dashboard env s dd).1.charts =
        (api_yield_dashboard_chart env s dd).1.map
          (fun chart => fqn_build_chart env.serviceName chart.name) ∧
      (api_yield_dashboard env s dd).1.charts =
        ((get_charts_of_dashboard dd).filterMap
          (fun cid => (s.all_charts cid).map (api_mk_chart_request env))).map
          (fun chart => fqn_build_chart env.serviceName chart.name)) ∧
    (∀ (env : DbEnv) (s : DbState) (dd : DashboardDetails),
      env.context_charts = (db_yield_dashboard_chart env s dd).1 →
      (db_yield_dashboard env s dd).1.charts =
        (db_yield_dashboard_chart env s dd).1.map
          (fun chart => fqn_build_chart env.serviceName chart.name) ∧
      (db_yield_dashboard env s dd).1.charts =
        ((get_charts_of_dashboard dd).filterMap
          (fun cid => (s.all_charts cid).map (db_mk_chart_request env))).map
          (fun chart => fqn_build_chart env.serviceName chart.name)) := by
  constructor
  · intro env s dd h
    have h1 : (api_yield_dashboard env s dd).1.charts =
        env.context_charts.map
          (fun chart => fqn_build_chart env.serviceName chart.name) := rfl
    have h2 : (api_yield_dashboard_chart env s dd).1 =
        (get_charts_of_dashboard dd).filterMap
          (fun cid => (s.all_charts cid).map (api_mk_chart_request env)) :=
      api_ydc_go_fst env (get_charts_of_dashboard dd) s
    constructor
    · rw [h1, h]
    · rw [h1, h, h2]
  · intro env s dd h
    have h1 : (db_yield_dashboard env s dd).1.charts =
        env.context_charts.map
          (fun chart => fqn_build_chart env.serviceName chart.name) := rfl
    have h2 : (db_yield_dashboard_chart env s dd).1 =
        (get_charts_of_dashboard dd).filterMap
          (fun cid => (s.all_charts cid).map (db_mk_chart_request env)) :=
      db_ydc_go_fst env (get_charts_of_dashboard dd) s
    constructor
    · rw [h1, h]
    · rw [h1, h, h2]

/-- Witness for C5 at the fixture dashboard: the context holds exactly the
one emitted chart request, and the dashboard request charts list is its
FQN. -/
theorem C5_witness :
    (api_yield_dashboard c5_api_env c1_api_state c1_dd).1.charts =
      (api_yield_dashboard_chart c5_api_env c1_api_state c1_dd).1.map
        (fun chart => fqn_build_chart c5_api_env.serviceName chart.name) ∧
    (db_yield_dashboard c5_db_env c1_db_state c1_dd).1.charts =
      (db_yield_dashboard_chart c5_db_env c1_db_state c1_dd).1.map
        (fun chart => fqn_build_chart c5_db_env.serviceName chart.name) :=
  ⟨(C5_dashboard_charts_exact.1 c5_api_env c1_api_state c1_dd rfl).1,
   (C5_dashboard_charts_exact.2 c5_db_env c1_db_state c1_dd rfl).1⟩

/-- C6: `prepare` in the API variant performs the sequential paginated
listing with page size 25: the cache it builds is exactly the fold of the
id-indexed inserts of the pages 0 through total/25 in order, the fetched
page indices are exactly those p with p * 25 <= total, and whenever the
listing reports pairwise-distinct chart ids, every chart of every fetched
page is retrievable from the cache under its id. -/
theorem C6_prepare_pagination :
    ∀ (env : ApiEnv) (s : ApiState),
      (api_prepare env s).all_charts =
        (allPairs env.client).foldl (fun acc kv => dictInsert acc kv.1 kv.2)
          s.all_charts ∧
      (∀ p : Nat, p ∈ pageList 0 (env.client.fetch_total_charts / 25 + 1) ↔
        p * 25 ≤ env.client.fetch_total_charts) ∧
      (((allPairs env.client).map Prod.fst).Nodup →
        ∀ (k : Nat) (v : SupersetChart), (k, v) ∈ allPairs env.client →
          (api_prepare env s).all_charts k = some v) := by
  intro env s
  have h1 : (api_prepare env s).all_charts =
      (pageList 0 (env.client.fetch_total_charts / 25 + 1)).foldl
        (fun acc q => insertPage acc (env.client.fetch_charts q 25))
        s.all_charts :=
    api_prepare_go_eq env.client env.client.fetch_total_charts _ 0 s.all_charts
      (by omega)
  have h2 : (api_prepare env s).all_charts =
      (allPairs env.client).foldl (fun acc kv => dictInsert acc kv.1 kv.2)
        s.all_charts := by
    rw [h1, allPairs, foldl_bind_eq]
    simp only [insertPage_eq_foldl]
  refine ⟨h2, ?_, ?_⟩
  · intro p
    rw [mem_pageList]
    omega
  · intro hnd k v hm
    rw [h2]
    exact foldl_dictInsert_lookup _ _ k v hm hnd

/-- Witness for C6 at a concrete two-page listing (26 charts reported):
ids are distinct across pages and both charts, one from each fetched
page, are retrievable from the primed cache by id. -/
theorem C6_witness :
    ((allPairs c6_client).map Prod.fst).Nodup ∧
    (api_prepare c6_env empty_api_state).all_charts 200 = some c6_chartB ∧
    (api_prepare c6_env empty_api_state).all_charts 100 = some c6_chartA := by
  have h := C6_prepare_pagination c6_env empty_api_state
  refine ⟨by decide, ?_, ?_⟩
  · exact h.2.2 (by decide) 200 c6_chartB (by decide)
  · exact h.2.2 (by decide) 100 c6_chartA (by decide)

/-- C8: the chart cache is read-only outside `prepare`: every per-
dashboard operation of both variants (chart emission, dashboard emission,
data-model emission, data-model lineage emission) returns a state whose
`all_charts` mapping is exactly the input one — only the status sink and
the log change. -/
theorem C8_cache_readonly_after_prepare :
    ∀ (envA : ApiEnv) (sA : ApiState) (envD : DbEnv) (sD : DbState)
      (dd : DashboardDetails),
      (api_yield_dashboard_chart envA sA dd).2.all_charts = sA.all_charts ∧
      (api_yield_dashboard envA sA dd).2.all_charts = sA.all_charts ∧
      (∀ r, api_yield_datamodel envA sA dd = .ok r →
        r.2.all_charts = sA.all_charts) ∧
      (api_yield_datamodel_dashboard_lineage envA sA).2.all_charts
        = sA.all_charts ∧
      (db_yield_dashboard_chart envD sD dd).2.all_charts = sD.all_charts ∧
      (db_yield_dashboard envD sD dd).2.all_charts = sD.all_charts ∧
      (∀ r, db_yield_datamodel envD sD dd = .ok r →
        r.2.all_charts = sD.all_charts) ∧
      (db_yield_datamodel_dashboard_lineage envD sD).2.all_charts
        = sD.all_charts := by
  intro envA sA envD sD dd
  refine ⟨api_ydc_go_all_charts envA _ sA, rfl, ?_,
          api_lin_go_all_charts envA _ sA,
          db_ydc_go_all_charts envD _ sD, rfl, ?_,
          db_lin_go_all_charts envD _ sD⟩
  · intro r h
    unfold api_yield_datamodel at h
    split at h
    · exact api_ydm_go_all_charts envA _ sA r h
    · cases h
      rfl
  · intro r h
    unfold db_yield_datamodel at h
    split at h
    · obtain ⟨r0, hr0, ha0⟩ := db_ydm_go_ok envD (get_charts_of_dashboard dd) sD
      rw [hr0] at h
      cases h
      exact ha0
    · cases h
      rfl

/-- Witness for C8 at the fixture runs: both data-model passes return
their concrete results with the cache untouched. -/
theorem C8_witness :
    c8_api_expected.2.all_charts = c1_api_state.all_charts ∧
    c8_db_expected.2.all_charts = c1_db_state.all_charts :=
  ⟨(C8_cache_readonly_after_prepare c1_api_env c1_api_state c1_db_env
      c1_db_state c1_dd).2.2.1 c8_api_expected rfl,
   (C8_cache_readonly_after_prepare c1_api_env c1_api_state c1_db_env
      c1_db_state c1_dd).2.2.2.2.2.2.1 c8_db_expected rfl⟩

/-- C9: `yield_datamodel_dashboard_lineage` of each variant emits, in
context order, exactly the successfully built edges — one candidate edge
from each context DataModel to the current Dashboard — so an edge that
fails to build is dropped alone: every DataModel whose edge builds is
still emitted; and a well-formed pair of entities always builds the edge
directed from the DataModel to the Dashboard. -/
theorem C9_datamodel_dashboard_lineage :
    (∀ (env : ApiEnv) (s : ApiState),
      (api_yield_datamodel_dashboard_lineage env s).1 =
        env.context_dataModels.filterMap
          (fun dm => (get_add_lineage_request env.context_dashboard dm).toOption)) ∧
    (∀ (env : DbEnv) (s : DbState),
      (db_yield_datamodel_dashboard_lineage env s).1 =
        env.context_dataModels.filterMap
          (fun dm => (get_add_lineage_request env.context_dashboard dm).toOption)) ∧
    (∀ (env : ApiEnv) (s : ApiState) (dm : EntityRef) (req : AddLineageRequest),
      dm ∈ env.context_dataModels →
      get_add_lineage_request env.context_dashboard dm = .ok req →
      req ∈ (api_yield_datamodel_dashboard_lineage env s).1) ∧
    (∀ (env : DbEnv) (s : DbState) (dm : EntityRef) (req : AddLineageRequest),
      dm ∈ env.context_dataModels →
      get_add_lineage_request env.context_dashboard dm = .ok req →
      req ∈ (db_yield_datamodel_dashboard_lineage env s).1) ∧
    (∀ (dash dm : EntityRef) (dmId dashId : String),
      dm.id = some dmId → dash.id = some dashId →
      get_add_lineage_request dash dm =
        .ok { fromEntity := dmId, toEntity := dashId }) := by
  refine ⟨?_, ?_, ?_, ?_, ?_⟩
  · intro env s
    exact api_lin_go_fst env env.context_dataModels s
  · intro env s
    exact db_lin_go_fst env env.context_dataModels s
  · intro env s dm req hmem hok
    unfold api_yield_datamodel_dashboard_lineage
    rw [api_lin_go_fst env env.context_dataModels s]
    exact List.mem_filterMap.mpr ⟨dm, hmem, by rw [hok]; rfl⟩
  · intro env s dm req hmem hok
    unfold db_yield_datamodel_dashboard_lineage
    rw [db_lin_go_fst env env.context_dataModels s]
    exact List.mem_filterMap.mpr ⟨dm, hmem, by rw [hok]; rfl⟩
  · intro dash dm dmId dashId h1 h2
    unfold get_add_lineage_request
    rw [h1, h2]

/-- Witness for C9 at a three-model context whose middle model is
malformed: the two well-formed edges are emitted (the failing middle one
is dropped without blocking the third), and the first built edge is in
the output. -/
theorem C9_witness :
    (api_yield_datamodel_dashboard_lineage c9_api_env empty_api_state).1 =
      [{ fromEntity := "dmA", toEntity := "dash7" },
       { fromEntity := "dmC", toEntity := "dash7" }] ∧
    ({ fromEntity := "dmA", toEntity := "dash7" } : AddLineageRequest) ∈
      (api_yield_datamodel_dashboard_lineage c9_api_env empty_api_state).1 := by
  constructor
  · rw [C9_datamodel_dashboard_lineage.1 c9_api_env empty_api_state]
    rfl
  · exact C9_datamodel_dashboard_lineage.2.2.1 c9_api_env empty_api_state
      c9_dm_good { fromEntity := "dmA", toEntity := "dash7" }
      (by decide) rfl
